import Mathlib

/-!
Shallow embedding of the trade ledger and PnL engine of
`src/services/trade_service.py` (class `TradeService`).

Modelling conventions:
* Monetary amounts (Python floats) are modelled as rationals `ℚ`; the claims
  are about the exact arithmetic structure of the formulas.
* The SQLite ledger is modelled as a `List Trade` in insertion (`id`) order;
  `session.query(Trade).filter(Trade.ca_mint == m).all()` becomes
  `query_by_asset`.
* The Jupiter HTTP quote endpoint is modelled as an environment
  `QuoteEnv : QuoteRequest → Except String QuoteData`: `.ok` is a 2xx
  response with parsed JSON, `.error` is any `RequestException`.
  The JSON body is modelled by the only field the service reads,
  `outAmount` (absent ⇒ `quote.get("outAmount", 0)` yields 0).
* Functions that perform network calls additionally return the list of
  `QuoteRequest`s they issued, so that "the provider is never invoked"
  is expressible.  Stateful functions take and return the ledger list.
* `datetime` fields are dropped (no claim mentions them); the DB session is
  assumed not to raise, so the `except` branches that wrap storage failures
  do not appear.
* Python `int(x)` on a rational is truncation toward zero (`pyInt`).
-/

/-- Python `int()` applied to a rational: truncation toward zero. -/
def pyInt (q : ℚ) : ℤ := if 0 ≤ q then ⌊q⌋ else ⌈q⌉

/-- A row of the `trades` table (`src/models/trade.py`), minus `id` and
`timestamp`, which no claim mentions; list position plays the role of `id`. -/
structure Trade where
  type : String
  ca_mint : String
  input_token : String
  input_amount : ℚ
  output_token : String
  output_amount : ℚ
  slippage_bps : ℤ
deriving DecidableEq

/-- The query parameters sent to the Jupiter quote endpoint
(`params` dict in `get_quote`); `amount` is already in smallest units. -/
structure QuoteRequest where
  inputMint : String
  outputMint : String
  amount : ℤ
  slippageBps : ℤ
deriving DecidableEq

/-- The part of the quote-response JSON that the service reads:
`quote.get("outAmount", 0)`, parsed by `int(...)`. -/
structure QuoteData where
  outAmount : Option ℤ
deriving DecidableEq

/-- The external quote provider: HTTP transport plus JSON parsing. -/
abbrev QuoteEnv := QuoteRequest → Except String QuoteData

/-- The service's uniform result dict:
`{"error_code": 0, "data": ...}` or `{"error_code": -1, "error_message": ...}`. -/
inductive TSResult (α : Type) where
  | ok (data : α)
  | err (msg : String)
deriving DecidableEq

/-- The `data` payload of a successful `calculate_pnl`. -/
structure PnLData where
  ca_mint : String
  total_sol_spent : ℚ
  total_ca_bought : ℚ
  total_sol_received : ℚ
  total_ca_sold : ℚ
  realized_pnl : ℚ
  unrealized_pnl : ℚ
  total_pnl : ℚ
deriving DecidableEq

/-- The hard-coded SOL mint used by `buy_ca`, `sell_ca` and `calculate_pnl`. -/
def sol_mint : String := "So11111111111111111111111111111111111111112"

/-- The request `get_quote` builds: `amount_lamports = int(amount * 10**9)`. -/
def mkQuoteRequest (input_mint output_mint : String) (amount : ℚ)
    (slippage_bps : ℤ) : QuoteRequest :=
  { inputMint := input_mint, outputMint := output_mint,
    amount := pyInt (amount * 10 ^ 9), slippageBps := slippage_bps }

/-- `TradeService.get_quote`: scale the amount, issue one request, wrap the
response; a transport error becomes
`{"error_code": -1, "error_message": "Failed to fetch quote: ..."}`.
The second component is the list of requests issued (always exactly one). -/
def get_quote (env : QuoteEnv) (input_mint output_mint : String) (amount : ℚ)
    (slippage_bps : ℤ) : TSResult QuoteData × List QuoteRequest :=
  let req := mkQuoteRequest input_mint output_mint amount slippage_bps
  match env req with
  | .ok j => (.ok j, [req])
  | .error e => (.err ("Failed to fetch quote: " ++ e), [req])

/-- `int(quote.get("outAmount", 0))`: the `outAmount` field, defaulting to 0. -/
def outAmountInt (d : QuoteData) : ℤ := d.outAmount.getD 0

/-- `session.query(Trade).filter(Trade.ca_mint == ca_mint).all()`. -/
def query_by_asset (ledger : List Trade) (ca_mint : String) : List Trade :=
  ledger.filter fun t => t.ca_mint == ca_mint

/-- Sum of `input_amount` over buy records
(`total_sol_spent` accumulated in `calculate_pnl`). -/
def totalBaseSpent (ts : List Trade) : ℚ :=
  ((ts.filter fun t => t.type == "buy").map Trade.input_amount).sum

/-- Sum of `output_amount` over buy records
(`sum(trade.output_amount for trade in ca_trades if trade.type == "buy")`). -/
def totalAssetBought (ts : List Trade) : ℚ :=
  ((ts.filter fun t => t.type == "buy").map Trade.output_amount).sum

/-- Sum of `output_amount` over sell records
(`total_sol_received` accumulated in `calculate_pnl`). -/
def totalBaseReceived (ts : List Trade) : ℚ :=
  ((ts.filter fun t => t.type == "sell").map Trade.output_amount).sum

/-- Sum of `input_amount` over sell records
(`sum(trade.input_amount for trade in ca_trades if trade.type == "sell")`). -/
def totalAssetSold (ts : List Trade) : ℚ :=
  ((ts.filter fun t => t.type == "sell").map Trade.input_amount).sum

/-- `remaining_ca = total_ca_bought - total_ca_sold`. -/
def remainingAsset (ts : List Trade) : ℚ := totalAssetBought ts - totalAssetSold ts

/-- `TradeService.get_total_ca_held`: total bought minus total sold for the
mint (the DB session is modelled as not raising, so the result is always
`error_code` 0). -/
def get_total_ca_held (ledger : List Trade) (ca_mint : String) : TSResult ℚ :=
  let ca_trades := query_by_asset ledger ca_mint
  .ok (totalAssetBought ca_trades - totalAssetSold ca_trades)

/-- `TradeService.buy_ca`: quote SOL → CA, pass a quote error through
unchanged, otherwise append a buy row built from the response.
Returns (result, new ledger, quote requests issued). -/
def buy_ca (env : QuoteEnv) (ledger : List Trade) (ca_mint : String)
    (amount_sol : ℚ) (slippage_bps : ℤ) :
    TSResult Trade × List Trade × List QuoteRequest :=
  let qr := get_quote env sol_mint ca_mint amount_sol slippage_bps
  match qr.1 with
  | .err m => (.err m, ledger, qr.2)
  | .ok quote =>
      let out_amount : ℚ := (outAmountInt quote : ℚ) / 10 ^ 9
      let trade : Trade :=
        { type := "buy", ca_mint := ca_mint, input_token := "SOL",
          input_amount := amount_sol, output_token := "CA",
          output_amount := out_amount, slippage_bps := slippage_bps }
      (.ok trade, ledger ++ [trade], qr.2)

/-- `TradeService.sell_ca`: symmetric to `buy_ca` with CA → SOL. -/
def sell_ca (env : QuoteEnv) (ledger : List Trade) (ca_mint : String)
    (amount_ca : ℚ) (slippage_bps : ℤ) :
    TSResult Trade × List Trade × List QuoteRequest :=
  let qr := get_quote env ca_mint sol_mint amount_ca slippage_bps
  match qr.1 with
  | .err m => (.err m, ledger, qr.2)
  | .ok quote =>
      let out_amount : ℚ := (outAmountInt quote : ℚ) / 10 ^ 9
      let trade : Trade :=
        { type := "sell", ca_mint := ca_mint, input_token := "CA",
          input_amount := amount_ca, output_token := "SOL",
          output_amount := out_amount, slippage_bps := slippage_bps }
      (.ok trade, ledger ++ [trade], qr.2)

/-- `TradeService.sell_all_ca`: look up the held total; if it is `<= 0` fail
with the no-holdings message and write nothing, else delegate to `sell_ca`. -/
def sell_all_ca (env : QuoteEnv) (ledger : List Trade) (ca_mint : String)
    (slippage_bps : ℤ) : TSResult Trade × List Trade × List QuoteRequest :=
  match get_total_ca_held ledger ca_mint with
  | .err m => (.err m, ledger, [])
  | .ok total_ca_held =>
      if total_ca_held ≤ 0 then
        (.err ("No CA tokens held for mint " ++ ca_mint ++ "."), ledger, [])
      else
        sell_ca env ledger ca_mint total_ca_held slippage_bps

/-- The running totals of the `for trade in ca_trades` loop in
`calculate_pnl`. -/
structure Totals where
  spent : ℚ
  bought : ℚ
  received : ℚ
  sold : ℚ
deriving DecidableEq

/-- One iteration of the accumulation loop in `calculate_pnl`. -/
def pnlFoldStep (acc : Totals) (t : Trade) : Totals :=
  if t.type == "buy" then
    { acc with spent := acc.spent + t.input_amount,
               bought := acc.bought + t.output_amount }
  else if t.type == "sell" then
    { acc with received := acc.received + t.output_amount,
               sold := acc.sold + t.input_amount }
  else acc

/-- The whole accumulation loop, starting from four zeros. -/
def pnlTotals (ts : List Trade) : Totals := ts.foldl pnlFoldStep ⟨0, 0, 0, 0⟩

/-- The request `calculate_pnl` issues for the current value of the open
position (`get_quote(input_mint=ca_mint, output_mint=sol_mint,
amount=remaining_ca)` with the default `slippage_bps=50`). -/
def pnlQuoteRequest (ca_mint : String) (remaining_ca : ℚ) : QuoteRequest :=
  mkQuoteRequest ca_mint sol_mint remaining_ca 50

/-- The unrealized-PnL branch of `calculate_pnl`: quote the remaining
position if positive; a failed quote degrades to 0. -/
def calc_unrealized (env : QuoteEnv) (ca_mint : String) (tot : Totals) :
    ℚ × List QuoteRequest :=
  let remaining_ca := tot.bought - tot.sold
  if 0 < remaining_ca then
    let qr := get_quote env ca_mint sol_mint remaining_ca 50
    match qr.1 with
    | .err _ => (0, qr.2)
    | .ok d =>
        let current_sol_value : ℚ := (outAmountInt d : ℚ) / 10 ^ 9
        let avg_buy_price : ℚ :=
          if 0 < tot.bought then tot.spent / tot.bought else 0
        let cost_of_remaining_ca := avg_buy_price * remaining_ca
        (current_sol_value - cost_of_remaining_ca, qr.2)
  else (0, [])

/-- `TradeService.calculate_pnl`: fail with the no-trades message on an
empty record set, else fold the records, compute realized PnL under the
guarded sold-fraction, compute unrealized PnL from a fresh quote, and
return every aggregate. -/
def calculate_pnl (env : QuoteEnv) (ledger : List Trade) (ca_mint : String) :
    TSResult PnLData × List QuoteRequest :=
  let ca_trades := query_by_asset ledger ca_mint
  if ca_trades.isEmpty then (.err "No trades found for this CA token.", [])
  else
    let tot := pnlTotals ca_trades
    let cost_of_sold_ca :=
      tot.spent * (if 0 < tot.bought then tot.sold / tot.bought else 0)
    let realized_pnl := tot.received - cost_of_sold_ca
    let ur := calc_unrealized env ca_mint tot
    (.ok { ca_mint := ca_mint, total_sol_spent := tot.spent,
           total_ca_bought := tot.bought, total_sol_received := tot.received,
           total_ca_sold := tot.sold, realized_pnl := realized_pnl,
           unrealized_pnl := ur.1, total_pnl := realized_pnl + ur.1 }, ur.2)

/-! Helper lemmas: the accumulation loop computes the four filtered sums. -/

theorem foldl_pnlFoldStep (ts : List Trade) (acc : Totals) :
    ts.foldl pnlFoldStep acc =
      ⟨acc.spent + totalBaseSpent ts, acc.bought + totalAssetBought ts,
       acc.received + totalBaseReceived ts, acc.sold + totalAssetSold ts⟩ := by
  induction ts generalizing acc with
  | nil =>
      simp [totalBaseSpent, totalAssetBought, totalBaseReceived, totalAssetSold]
  | cons t ts ih =>
      by_cases hb : t.type = "buy"
      · simp [List.foldl_cons, ih, pnlFoldStep, hb, totalBaseSpent,
          totalAssetBought, totalBaseReceived, totalAssetSold,
          List.filter_cons, add_assoc]
      · by_cases hs : t.type = "sell"
        · simp [List.foldl_cons, ih, pnlFoldStep, hb, hs, totalBaseSpent,
            totalAssetBought, totalBaseReceived, totalAssetSold,
            List.filter_cons, add_assoc]
        · simp [List.foldl_cons, ih, pnlFoldStep, hb, hs, totalBaseSpent,
            totalAssetBought, totalBaseReceived, totalAssetSold,
            List.filter_cons]

theorem pnlTotals_eq (ts : List Trade) :
    pnlTotals ts = ⟨totalBaseSpent ts, totalAssetBought ts,
      totalBaseReceived ts, totalAssetSold ts⟩ := by
  simp [pnlTotals, foldl_pnlFoldStep]

theorem isEmpty_false_of_ne_nil {α : Type} {l : List α} (h : l ≠ []) :
    l.isEmpty = false := by
  cases l with
  | nil => exact absurd rfl h
  | cons a t => rfl

theorem totalAssetBought_nil : totalAssetBought [] = 0 := rfl

theorem remainingAsset_nil : remainingAsset [] = 0 := by
  simp [remainingAsset, totalAssetBought, totalAssetSold]

theorem query_ne_nil_of_bought_pos {ledger : List Trade} {mint : String}
    (hb : 0 < totalAssetBought (query_by_asset ledger mint)) :
    query_by_asset ledger mint ≠ [] := by
  intro h
  rw [h, totalAssetBought_nil] at hb
  exact lt_irrefl 0 hb

theorem query_ne_nil_of_remaining_pos {ledger : List Trade} {mint : String}
    (hr : 0 < remainingAsset (query_by_asset ledger mint)) :
    query_by_asset ledger mint ≠ [] := by
  intro h
  rw [h, remainingAsset_nil] at hr
  exact lt_irrefl 0 hr

theorem calculate_pnl_nonempty (env : QuoteEnv) (ledger : List Trade)
    (mint : String) (h : query_by_asset ledger mint ≠ []) :
    calculate_pnl env ledger mint =
      ((TSResult.ok
        { ca_mint := mint
          total_sol_spent := totalBaseSpent (query_by_asset ledger mint)
          total_ca_bought := totalAssetBought (query_by_asset ledger mint)
          total_sol_received := totalBaseReceived (query_by_asset ledger mint)
          total_ca_sold := totalAssetSold (query_by_asset ledger mint)
          realized_pnl := totalBaseReceived (query_by_asset ledger mint) -
            totalBaseSpent (query_by_asset ledger mint) *
              (if 0 < totalAssetBought (query_by_asset ledger mint) then
                totalAssetSold (query_by_asset ledger mint) /
                  totalAssetBought (query_by_asset ledger mint)
              else 0)
          unrealized_pnl :=
            (calc_unrealized env mint (pnlTotals (query_by_asset ledger mint))).1
          total_pnl := (totalBaseReceived (query_by_asset ledger mint) -
            totalBaseSpent (query_by_asset ledger mint) *
              (if 0 < totalAssetBought (query_by_asset ledger mint) then
                totalAssetSold (query_by_asset ledger mint) /
                  totalAssetBought (query_by_asset ledger mint)
              else 0)) +
            (calc_unrealized env mint (pnlTotals (query_by_asset ledger mint))).1 }),
       (calc_unrealized env mint (pnlTotals (query_by_asset ledger mint))).2) := by
  rw [calculate_pnl]
  simp only [isEmpty_false_of_ne_nil h, Bool.false_eq_true, if_false,
    pnlTotals_eq]

theorem calc_unrealized_nonpos (env : QuoteEnv) (mint : String)
    (ts : List Trade) (hr : remainingAsset ts ≤ 0) :
    calc_unrealized env mint (pnlTotals ts) = (0, []) := by
  rw [calc_unrealized]
  simp only [pnlTotals_eq]
  rw [if_neg]
  exact not_lt.2 hr

theorem calc_unrealized_pos_err (env : QuoteEnv) (mint : String)
    (ts : List Trade) (e : String) (hr : 0 < remainingAsset ts)
    (he : env (pnlQuoteRequest mint (remainingAsset ts)) = .error e) :
    calc_unrealized env mint (pnlTotals ts) =
      (0, [pnlQuoteRequest mint (remainingAsset ts)]) := by
  rw [calc_unrealized]
  simp only [pnlTotals_eq]
  rw [if_pos]
  · simp only [get_quote, pnlQuoteRequest] at he ⊢
    rw [show totalAssetBought ts - totalAssetSold ts = remainingAsset ts from rfl,
      he]
  · exact hr

theorem calc_unrealized_pos_ok (env : QuoteEnv) (mint : String)
    (ts : List Trade) (d : QuoteData) (hr : 0 < remainingAsset ts)
    (hq : env (pnlQuoteRequest mint (remainingAsset ts)) = .ok d) :
    calc_unrealized env mint (pnlTotals ts) =
      ((outAmountInt d : ℚ) / 10 ^ 9 -
        (if 0 < totalAssetBought ts then
          totalBaseSpent ts / totalAssetBought ts else 0) * remainingAsset ts,
       [pnlQuoteRequest mint (remainingAsset ts)]) := by
  rw [calc_unrealized]
  simp only [pnlTotals_eq]
  rw [if_pos]
  · simp only [get_quote, pnlQuoteRequest] at hq ⊢
    rw [show totalAssetBought ts - totalAssetSold ts = remainingAsset ts from rfl,
      hq]
  · exact hr

/-! Concrete environments and ledgers used as evaluation witnesses. -/

/-- A quote provider that is always down. -/
def env0 : QuoteEnv := fun _ => .error "provider offline"

/-- A quote provider whose responses always lack the `outAmount` field. -/
def envNone : QuoteEnv := fun _ => .ok ⟨none⟩

/-- A quote provider that always answers with the given raw `outAmount`. -/
def envOut (n : ℤ) : QuoteEnv := fun _ => .ok ⟨some n⟩

/-- One buy of 1 SOL for 2 CA and one sell of 2 CA for 1.5 SOL. -/
def L1 : List Trade :=
  [⟨"buy", "M", "SOL", 1, "CA", 2, 50⟩, ⟨"sell", "M", "CA", 2, "SOL", 3 / 2, 50⟩]

/-- A single buy of 1 SOL for 2 CA (open position of 2 CA). -/
def L2 : List Trade := [⟨"buy", "M", "SOL", 1, "CA", 2, 50⟩]

/-- Buys of 1 and 3 SOL for 2 and 6 CA, then a sell of 4 CA for 2.5 SOL. -/
def L3 : List Trade :=
  [⟨"buy", "M", "SOL", 1, "CA", 2, 50⟩, ⟨"buy", "M", "SOL", 3, "CA", 6, 50⟩,
   ⟨"sell", "M", "CA", 4, "SOL", 5 / 2, 50⟩]

/-- Two sells and no buys. -/
def L4 : List Trade :=
  [⟨"sell", "M", "CA", 3, "SOL", 2, 50⟩, ⟨"sell", "M", "CA", 1, "SOL", 1, 50⟩]

/-- C7: for every mint with zero ledger records, `calculate_pnl` fails with
the no-trades error (and issues no quote request) rather than returning a
zero-valued result. -/
theorem calculate_pnl_no_trades (env : QuoteEnv) (ledger : List Trade)
    (mint : String) (h : query_by_asset ledger mint = []) :
    calculate_pnl env ledger mint =
      (.err "No trades found for this CA token.", []) := by
  rw [calculate_pnl]
  simp [h]

/-- Witness for C7 at the empty ledger. -/
theorem calculate_pnl_no_trades_witness :
    query_by_asset [] "M" = [] ∧
    calculate_pnl env0 [] "M" =
      (.err "No trades found for this CA token.", []) :=
  ⟨rfl, calculate_pnl_no_trades env0 [] "M" rfl⟩

/-- C1: whenever the records for a mint have `totalAssetBought > 0`,
`calculate_pnl` succeeds and its realized PnL is exactly
`totalBaseReceived - totalBaseSpent * (totalAssetSold / totalAssetBought)`. -/
theorem calculate_pnl_realized_formula (env : QuoteEnv) (ledger : List Trade)
    (mint : String)
    (hb : 0 < totalAssetBought (query_by_asset ledger mint)) :
    ∃ pd, (calculate_pnl env ledger mint).1 = .ok pd ∧
      pd.realized_pnl = totalBaseReceived (query_by_asset ledger mint) -
        totalBaseSpent (query_by_asset ledger mint) *
          (totalAssetSold (query_by_asset ledger mint) /
            totalAssetBought (query_by_asset ledger mint)) := by
  rw [calculate_pnl_nonempty env ledger mint (query_ne_nil_of_bought_pos hb)]
  exact ⟨_, rfl, by rw [if_pos hb]⟩

/-- Witness for C1: one buy (1 SOL → 2 CA) and one sell (2 CA → 1.5 SOL). -/
theorem calculate_pnl_realized_formula_witness :
    0 < totalAssetBought (query_by_asset L1 "M") ∧
    ∃ pd, (calculate_pnl env0 L1 "M").1 = .ok pd ∧
      pd.realized_pnl = totalBaseReceived (query_by_asset L1 "M") -
        totalBaseSpent (query_by_asset L1 "M") *
          (totalAssetSold (query_by_asset L1 "M") /
            totalAssetBought (query_by_asset L1 "M")) := by
  have hb : 0 < totalAssetBought (query_by_asset L1 "M") := by
    simp [totalAssetBought, query_by_asset, L1]
  exact ⟨hb, calculate_pnl_realized_formula env0 L1 "M" hb⟩

/-- C2: when the quote request issued by `buy_ca` fails, `buy_ca` returns the
quote error unchanged (the same result `get_quote` produced) and the ledger
is untouched, so the records of every mint are exactly as before. -/
theorem buy_ca_quote_failure (env : QuoteEnv) (ledger : List Trade)
    (mint : String) (amt : ℚ) (slp : ℤ) (e : String) (_hpos : 0 < amt)
    (he : env (mkQuoteRequest sol_mint mint amt slp) = .error e) :
    (buy_ca env ledger mint amt slp).1 =
      .err ("Failed to fetch quote: " ++ e) ∧
    (get_quote env sol_mint mint amt slp).1 =
      .err ("Failed to fetch quote: " ++ e) ∧
    (buy_ca env ledger mint amt slp).2.1 = ledger ∧
    ∀ m, query_by_asset (buy_ca env ledger mint amt slp).2.1 m =
      query_by_asset ledger m := by
  simp [buy_ca, get_quote, he]

/-- Witness for C2: the always-failing provider on an empty ledger. -/
theorem buy_ca_quote_failure_witness :
    (0 : ℚ) < 1 ∧
    env0 (mkQuoteRequest sol_mint "M" 1 50) = .error "provider offline" ∧
    ((buy_ca env0 [] "M" 1 50).1 =
       .err ("Failed to fetch quote: " ++ "provider offline") ∧
     (get_quote env0 sol_mint "M" 1 50).1 =
       .err ("Failed to fetch quote: " ++ "provider offline") ∧
     (buy_ca env0 [] "M" 1 50).2.1 = [] ∧
     ∀ m, query_by_asset (buy_ca env0 [] "M" 1 50).2.1 m =
       query_by_asset [] m) :=
  ⟨by norm_num, rfl,
   buy_ca_quote_failure env0 [] "M" 1 50 "provider offline" (by norm_num) rfl⟩

/-- C3: when the computed remaining asset for a mint is zero or negative,
`sell_all_ca` fails with the no-holdings error, writes nothing and issues no
quote request; when it is positive, `sell_all_ca` is exactly `sell_ca` at
that remaining amount. -/
theorem sell_all_ca_spec (env : QuoteEnv) (ledger : List Trade)
    (mint : String) (slp : ℤ) :
    (remainingAsset (query_by_asset ledger mint) ≤ 0 →
      sell_all_ca env ledger mint slp =
        (.err ("No CA tokens held for mint " ++ mint ++ "."), ledger, [])) ∧
    (0 < remainingAsset (query_by_asset ledger mint) →
      sell_all_ca env ledger mint slp =
        sell_ca env ledger mint (remainingAsset (query_by_asset ledger mint))
          slp) := by
  have key : get_total_ca_held ledger mint =
      .ok (remainingAsset (query_by_asset ledger mint)) := rfl
  constructor
  · intro h
    simp only [sell_all_ca, key]
    rw [if_pos h]
  · intro h
    simp only [sell_all_ca, key]
    rw [if_neg (not_le.2 h)]

/-- Witness for C3: the empty ledger hits the no-holdings branch, a ledger
with one open buy delegates to `sell_ca`. -/
theorem sell_all_ca_spec_witness :
    (remainingAsset (query_by_asset ([] : List Trade) "M") ≤ 0 ∧
     sell_all_ca env0 [] "M" 50 =
       (.err ("No CA tokens held for mint " ++ "M" ++ "."), [], [])) ∧
    (0 < remainingAsset (query_by_asset L2 "M") ∧
     sell_all_ca env0 L2 "M" 50 =
       sell_ca env0 L2 "M" (remainingAsset (query_by_asset L2 "M")) 50) := by
  have h1 : remainingAsset (query_by_asset ([] : List Trade) "M") ≤ 0 := by
    simp [query_by_asset, remainingAsset, totalAssetBought, totalAssetSold]
  have h2 : 0 < remainingAsset (query_by_asset L2 "M") := by
    simp [query_by_asset, remainingAsset, totalAssetBought, totalAssetSold, L2]
  exact ⟨⟨h1, (sell_all_ca_spec env0 [] "M" 50).1 h1⟩,
         ⟨h2, (sell_all_ca_spec env0 L2 "M" 50).2 h2⟩⟩

/-- Counterexample to C4: at the non-positive amount 0, `buy_ca` does not
reject the request: it issues the quote request, appends a buy record and
returns success. -/
theorem buy_ca_rejects_nonpositive_cex :
    (buy_ca (envOut 2000000000) [] "MINT" 0 50).2.2 =
      [mkQuoteRequest sol_mint "MINT" 0 50] ∧
    (buy_ca (envOut 2000000000) [] "MINT" 0 50).2.1 =
      [⟨"buy", "MINT", "SOL", 0, "CA", 2, 50⟩] ∧
    (buy_ca (envOut 2000000000) [] "MINT" 0 50).1 =
      .ok ⟨"buy", "MINT", "SOL", 0, "CA", 2, 50⟩ := by
  refine ⟨rfl, ?_, ?_⟩ <;> simp [buy_ca, get_quote, envOut, outAmountInt] <;>
    norm_num

/-- C4 (amended): `buy_ca` performs no validation of the base amount: even
for a non-positive amount it issues exactly one quote request for that
amount, and on a successful quote appends a buy record and returns it (the
positivity check lives only in the excluded chat front end). -/
theorem buy_ca_no_validation (env : QuoteEnv) (ledger : List Trade)
    (mint : String) (amt : ℚ) (slp : ℤ) (d : QuoteData) (_hnp : amt ≤ 0)
    (hq : env (mkQuoteRequest sol_mint mint amt slp) = .ok d) :
    (buy_ca env ledger mint amt slp).2.2 =
      [mkQuoteRequest sol_mint mint amt slp] ∧
    (buy_ca env ledger mint amt slp).1 =
      .ok ⟨"buy", mint, "SOL", amt, "CA", (outAmountInt d : ℚ) / 10 ^ 9, slp⟩ ∧
    (buy_ca env ledger mint amt slp).2.1 =
      ledger ++
        [⟨"buy", mint, "SOL", amt, "CA", (outAmountInt d : ℚ) / 10 ^ 9, slp⟩] := by
  simp [buy_ca, get_quote, hq]

/-- Witness for C4 (amended) at amount 0. -/
theorem buy_ca_no_validation_witness :
    (0 : ℚ) ≤ 0 ∧
    envOut 2000000000 (mkQuoteRequest sol_mint "MINT" 0 50) =
      .ok ⟨some 2000000000⟩ ∧
    ((buy_ca (envOut 2000000000) [] "MINT" 0 50).2.2 =
       [mkQuoteRequest sol_mint "MINT" 0 50] ∧
     (buy_ca (envOut 2000000000) [] "MINT" 0 50).1 =
       .ok ⟨"buy", "MINT", "SOL", 0, "CA",
         (outAmountInt ⟨some 2000000000⟩ : ℚ) / 10 ^ 9, 50⟩ ∧
     (buy_ca (envOut 2000000000) [] "MINT" 0 50).2.1 =
       [] ++ [⟨"buy", "MINT", "SOL", 0, "CA",
         (outAmountInt ⟨some 2000000000⟩ : ℚ) / 10 ^ 9, 50⟩]) :=
  ⟨le_refl 0, rfl,
   buy_ca_no_validation (envOut 2000000000) [] "MINT" 0 50 ⟨some 2000000000⟩
     (le_refl 0) rfl⟩

/-- C5: when the remaining asset is positive but the current-value quote
fails, `calculate_pnl` still succeeds, the unrealized PnL degrades to 0, and
the total PnL is the realized PnL alone. -/
theorem calculate_pnl_quote_failure (env : QuoteEnv) (ledger : List Trade)
    (mint : String) (e : String)
    (hr : 0 < remainingAsset (query_by_asset ledger mint))
    (he : env (pnlQuoteRequest mint
      (remainingAsset (query_by_asset ledger mint))) = .error e) :
    ∃ pd, (calculate_pnl env ledger mint).1 = .ok pd ∧
      pd.unrealized_pnl = 0 ∧ pd.total_pnl = pd.realized_pnl := by
  rw [calculate_pnl_nonempty env ledger mint (query_ne_nil_of_remaining_pos hr),
    calc_unrealized_pos_err env mint _ e hr he]
  exact ⟨_, rfl, rfl, by simp⟩

/-- Witness for C5: one open buy and an offline provider. -/
theorem calculate_pnl_quote_failure_witness :
    0 < remainingAsset (query_by_asset L2 "M") ∧
    env0 (pnlQuoteRequest "M" (remainingAsset (query_by_asset L2 "M"))) =
      .error "provider offline" ∧
    ∃ pd, (calculate_pnl env0 L2 "M").1 = .ok pd ∧
      pd.unrealized_pnl = 0 ∧ pd.total_pnl = pd.realized_pnl := by
  have hr : 0 < remainingAsset (query_by_asset L2 "M") := by
    simp [query_by_asset, remainingAsset, totalAssetBought, totalAssetSold, L2]
  exact ⟨hr, rfl,
    calculate_pnl_quote_failure env0 L2 "M" "provider offline" hr rfl⟩

/-- C6: with a positive remaining asset and a successful current quote the
unrealized PnL is the current base value minus the average buy price times
the remaining asset (average price guarded to 0 when nothing was bought);
with a non-positive remaining asset it is 0; and every successful result has
`total_pnl = realized_pnl + unrealized_pnl`. -/
theorem calculate_pnl_unrealized_spec (env : QuoteEnv) (ledger : List Trade)
    (mint : String) :
    (∀ d : QuoteData,
      0 < remainingAsset (query_by_asset ledger mint) →
      env (pnlQuoteRequest mint
        (remainingAsset (query_by_asset ledger mint))) = .ok d →
      ∃ pd, (calculate_pnl env ledger mint).1 = .ok pd ∧
        pd.unrealized_pnl = (outAmountInt d : ℚ) / 10 ^ 9 -
          (if 0 < totalAssetBought (query_by_asset ledger mint) then
            totalBaseSpent (query_by_asset ledger mint) /
              totalAssetBought (query_by_asset ledger mint)
          else 0) * remainingAsset (query_by_asset ledger mint)) ∧
    (query_by_asset ledger mint ≠ [] →
      remainingAsset (query_by_asset ledger mint) ≤ 0 →
      ∃ pd, (calculate_pnl env ledger mint).1 = .ok pd ∧
        pd.unrealized_pnl = 0) ∧
    (∀ pd, (calculate_pnl env ledger mint).1 = .ok pd →
      pd.total_pnl = pd.realized_pnl + pd.unrealized_pnl) := by
  refine ⟨?_, ?_, ?_⟩
  · intro d hr hq
    rw [calculate_pnl_nonempty env ledger mint (query_ne_nil_of_remaining_pos hr),
      calc_unrealized_pos_ok env mint _ d hr hq]
    exact ⟨_, rfl, rfl⟩
  · intro hne hr
    rw [calculate_pnl_nonempty env ledger mint hne,
      calc_unrealized_nonpos env mint _ hr]
    exact ⟨_, rfl, rfl⟩
  · intro pd hpd
    by_cases hne : query_by_asset ledger mint = []
    · rw [calculate_pnl_no_trades env ledger mint hne] at hpd
      exact absurd hpd (by simp)
    · rw [calculate_pnl_nonempty env ledger mint hne] at hpd
      dsimp only at hpd
      rw [TSResult.ok.injEq] at hpd
      subst hpd
      rfl

/-- Witness for C6 on the two-buys-one-sell ledger with a live quote of
1.8 SOL for the remaining 4 CA. -/
theorem calculate_pnl_unrealized_spec_witness :
    0 < remainingAsset (query_by_asset L3 "M") ∧
    envOut 1800000000 (pnlQuoteRequest "M"
      (remainingAsset (query_by_asset L3 "M"))) = .ok ⟨some 1800000000⟩ ∧
    ∃ pd, (calculate_pnl (envOut 1800000000) L3 "M").1 = .ok pd ∧
      pd.unrealized_pnl = (outAmountInt ⟨some 1800000000⟩ : ℚ) / 10 ^ 9 -
        (if 0 < totalAssetBought (query_by_asset L3 "M") then
          totalBaseSpent (query_by_asset L3 "M") /
            totalAssetBought (query_by_asset L3 "M")
        else 0) * remainingAsset (query_by_asset L3 "M") := by
  have hr : 0 < remainingAsset (query_by_asset L3 "M") := by
    simp [query_by_asset, remainingAsset, totalAssetBought, totalAssetSold, L3]
    norm_num
  exact ⟨hr, rfl, (calculate_pnl_unrealized_spec (envOut 1800000000) L3 "M").1
    ⟨some 1800000000⟩ hr rfl⟩

/-- C8: the amount sent to the provider is always the human-unit amount
scaled by `10^9` and truncated to an integer; a successful quote with raw
`outAmount = n` is stored scaled down by `10^9`; in particular a buy of 1.0
with `outAmount = 2000000000` stores `output_amount = 2`. -/
theorem quote_scale_spec (env : QuoteEnv) (ledger : List Trade)
    (mint input_mint output_mint : String) (amt : ℚ) (slp : ℤ)
    (d : QuoteData) (n : ℤ)
    (hq : env (mkQuoteRequest sol_mint mint amt slp) = .ok d)
    (hout : d.outAmount = some n) :
    (get_quote env input_mint output_mint amt slp).2.map QuoteRequest.amount =
      [pyInt (amt * 10 ^ 9)] ∧
    (∃ t, (buy_ca env ledger mint amt slp).1 = .ok t ∧
      t.output_amount = (n : ℚ) / 10 ^ 9) ∧
    (amt = 1 → n = 2000000000 →
      ∃ t, (buy_ca env ledger mint amt slp).1 = .ok t ∧
        t.output_amount = 2) := by
  refine ⟨?_, ?_, ?_⟩
  · simp only [get_quote]
    cases henv : env (mkQuoteRequest input_mint output_mint amt slp) <;>
      simp [mkQuoteRequest]
  · exact ⟨⟨"buy", mint, "SOL", amt, "CA", (outAmountInt d : ℚ) / 10 ^ 9, slp⟩,
      by simp [buy_ca, get_quote, hq], by simp [outAmountInt, hout]⟩
  · intro _ h2
    refine ⟨⟨"buy", mint, "SOL", amt, "CA", (outAmountInt d : ℚ) / 10 ^ 9, slp⟩,
      by simp [buy_ca, get_quote, hq], ?_⟩
    simp only [outAmountInt, hout, h2, Option.getD_some]
    norm_num

/-- Witness for C8: a buy of 1.0 against a provider answering 2000000000. -/
theorem quote_scale_spec_witness :
    envOut 2000000000 (mkQuoteRequest sol_mint "MINT" 1 50) =
      .ok ⟨some 2000000000⟩ ∧
    (QuoteData.mk (some 2000000000)).outAmount = some 2000000000 ∧
    ((get_quote (envOut 2000000000) "A" "B" 1 50).2.map QuoteRequest.amount =
       [pyInt (1 * 10 ^ 9)] ∧
     (∃ t, (buy_ca (envOut 2000000000) [] "MINT" 1 50).1 = .ok t ∧
       t.output_amount = ((2000000000 : ℤ) : ℚ) / 10 ^ 9) ∧
     ((1 : ℚ) = 1 → (2000000000 : ℤ) = 2000000000 →
       ∃ t, (buy_ca (envOut 2000000000) [] "MINT" 1 50).1 = .ok t ∧
         t.output_amount = 2)) :=
  ⟨rfl, rfl, quote_scale_spec (envOut 2000000000) [] "MINT" "A" "B" 1 50
    ⟨some 2000000000⟩ 2000000000 rfl rfl⟩

/-- C9: when the quote HTTP call succeeds but the response JSON has no
`outAmount` field, both `buy_ca` and `sell_ca` still succeed and append a
record whose `output_amount` is 0 instead of reporting an error. -/
theorem missing_outAmount_defaults_zero (env : QuoteEnv) (ledger : List Trade)
    (mint : String) (amt_b amt_s : ℚ) (slp : ℤ)
    (hb : env (mkQuoteRequest sol_mint mint amt_b slp) = .ok ⟨none⟩)
    (hs : env (mkQuoteRequest mint sol_mint amt_s slp) = .ok ⟨none⟩) :
    ((buy_ca env ledger mint amt_b slp).1 =
       .ok ⟨"buy", mint, "SOL", amt_b, "CA", 0, slp⟩ ∧
     (buy_ca env ledger mint amt_b slp).2.1 =
       ledger ++ [⟨"buy", mint, "SOL", amt_b, "CA", 0, slp⟩]) ∧
    ((sell_ca env ledger mint amt_s slp).1 =
       .ok ⟨"sell", mint, "CA", amt_s, "SOL", 0, slp⟩ ∧
     (sell_ca env ledger mint amt_s slp).2.1 =
       ledger ++ [⟨"sell", mint, "CA", amt_s, "SOL", 0, slp⟩]) := by
  constructor <;> constructor <;>
    simp [buy_ca, sell_ca, get_quote, hb, hs, outAmountInt]

/-- Witness for C9: the provider that always omits `outAmount`. -/
theorem missing_outAmount_defaults_zero_witness :
    envNone (mkQuoteRequest sol_mint "M" 1 50) = .ok ⟨none⟩ ∧
    envNone (mkQuoteRequest "M" sol_mint 1 50) = .ok ⟨none⟩ ∧
    (((buy_ca envNone [] "M" 1 50).1 =
        .ok ⟨"buy", "M", "SOL", 1, "CA", 0, 50⟩ ∧
      (buy_ca envNone [] "M" 1 50).2.1 =
        [] ++ [⟨"buy", "M", "SOL", 1, "CA", 0, 50⟩]) ∧
     ((sell_ca envNone [] "M" 1 50).1 =
        .ok ⟨"sell", "M", "CA", 1, "SOL", 0, 50⟩ ∧
      (sell_ca envNone [] "M" 1 50).2.1 =
        [] ++ [⟨"sell", "M", "CA", 1, "SOL", 0, 50⟩])) :=
  ⟨rfl, rfl, missing_outAmount_defaults_zero envNone [] "M" 1 1 50 rfl rfl⟩

/-- C10: on a non-empty record set made only of sells with positive input
amounts, the bought total is 0 and the remaining asset is negative, yet
`calculate_pnl` succeeds, with realized PnL equal to the base received (the
sold-fraction guard yields cost 0) and unrealized PnL 0. -/
theorem pnl_sell_only_spec (env : QuoteEnv) (ledger : List Trade)
    (mint : String)
    (hne : query_by_asset ledger mint ≠ [])
    (hall : ∀ t ∈ query_by_asset ledger mint, t.type = "sell")
    (hpos : ∀ t ∈ query_by_asset ledger mint, 0 < t.input_amount) :
    totalAssetBought (query_by_asset ledger mint) = 0 ∧
    remainingAsset (query_by_asset ledger mint) < 0 ∧
    ∃ pd, (calculate_pnl env ledger mint).1 = .ok pd ∧
      pd.realized_pnl = totalBaseReceived (query_by_asset ledger mint) ∧
      pd.unrealized_pnl = 0 := by
  have hfb : (query_by_asset ledger mint).filter (fun t => t.type == "buy") =
      [] := by
    rw [List.filter_eq_nil_iff]
    intro t ht
    simp [hall t ht]
  have hbought : totalAssetBought (query_by_asset ledger mint) = 0 := by
    rw [totalAssetBought, hfb]
    rfl
  have hfs : (query_by_asset ledger mint).filter (fun t => t.type == "sell") =
      query_by_asset ledger mint := by
    rw [List.filter_eq_self]
    intro t ht
    simp [hall t ht]
  have hsold : 0 < totalAssetSold (query_by_asset ledger mint) := by
    rw [totalAssetSold, hfs]
    refine List.sum_pos _ ?_ ?_
    · intro x hx
      obtain ⟨t, ht, rfl⟩ := List.mem_map.1 hx
      exact hpos t ht
    · intro hmap
      exact hne (List.map_eq_nil_iff.mp hmap)
  have hrem : remainingAsset (query_by_asset ledger mint) < 0 := by
    rw [remainingAsset, hbought]
    linarith
  refine ⟨hbought, hrem, ?_⟩
  rw [calculate_pnl_nonempty env ledger mint hne,
    calc_unrealized_nonpos env mint _ (le_of_lt hrem)]
  refine ⟨_, rfl, ?_, rfl⟩
  rw [hbought]
  simp

/-- Witness for C10 on the two-sells-no-buys ledger. -/
theorem pnl_sell_only_spec_witness :
    query_by_asset L4 "M" ≠ [] ∧
    (∀ t ∈ query_by_asset L4 "M", t.type = "sell") ∧
    (∀ t ∈ query_by_asset L4 "M", 0 < t.input_amount) ∧
    (totalAssetBought (query_by_asset L4 "M") = 0 ∧
     remainingAsset (query_by_asset L4 "M") < 0 ∧
     ∃ pd, (calculate_pnl env0 L4 "M").1 = .ok pd ∧
       pd.realized_pnl = totalBaseReceived (query_by_asset L4 "M") ∧
       pd.unrealized_pnl = 0) := by
  have h1 : query_by_asset L4 "M" ≠ [] := by simp [query_by_asset, L4]
  have h2 : ∀ t ∈ query_by_asset L4 "M", t.type = "sell" := by
    intro t ht
    simp [query_by_asset, L4] at ht
    rcases ht with rfl | rfl <;> rfl
  have h3 : ∀ t ∈ query_by_asset L4 "M", 0 < t.input_amount := by
    intro t ht
    simp [query_by_asset, L4] at ht
    rcases ht with rfl | rfl <;> norm_num
  exact ⟨h1, h2, h3, pnl_sell_only_spec env0 L4 "M" h1 h2 h3⟩
